import Mathlib

/-!
Verification of the triple-extraction and Cypher-statement-compilation pipeline
of pdf2neo4j.py (functions mock_nlp_to_triples, generate_cypher_query and
automated_kg_pipeline), as a shallow embedding over lists of characters.

The three extraction rules of mock_nlp_to_triples are Python regular
expressions applied with re.findall (leftmost, non-overlapping scan):
  rule 1: (프로젝트 [A-Z]\x7b1,3\x7d)은 (.+? 기술)을
  rule 2: (\w+? 컴퍼니)에서 (프로젝트 [A-Z]\x7b1,3\x7d)를 수행
  rule 3: (\w+? 컴퍼니)는 (.+? 산업) 분야의
Each rule is embedded as a matcher that, at a given position, mirrors the
backtracking semantics of the pattern: literals match exactly, [A-Z]\x7b1,3\x7d is
greedy with backtracking (longest first), and the lazy quantifiers +? grow
one character at a time, shortest first, retrying the rest of the pattern.
-/

namespace Pdf2Neo4j

/-- Apostrophe (code point 39): the single-quote delimiter of Cypher string
literals, and the only character escaped by generate_cypher_query. -/
def quoteChar : Char := Char.ofNat 39

/-- Backslash (code point 92): the escape character of Cypher string
literals. -/
def backslashChar : Char := Char.ofNat 92

/-- Character class of the regex range [A-Z]. -/
def isUpperAZ (c : Char) : Bool := 'A' ≤ c && c ≤ 'Z'

/-- Model of the Python regex class backslash-w (Unicode word character),
restricted to the character repertoire of this program: ASCII letters and
digits, the underscore, and precomposed Hangul syllables (U+AC00 to U+D7A3).
Python also counts other Unicode letters, which do not occur here. -/
def isWordChar (c : Char) : Bool :=
  c.isAlphanum || c = '_' || (0xAC00 ≤ c.toNat && c.toNat ≤ 0xD7A3)

/-- Whitespace test modelling Python str.strip for the characters occurring in
this program (space, tab, carriage return, line feed). -/
def wsChar (c : Char) : Bool := c.isWhitespace

/-- Model of Python str.strip: remove whitespace from both ends. -/
def pyStrip (l : List Char) : List Char :=
  ((l.dropWhile wsChar).reverse.dropWhile wsChar).reverse

/-- A captured group, stripped, as a string: models group.strip() in the
list comprehensions of mock_nlp_to_triples. -/
def stripName (l : List Char) : String := String.mk (pyStrip l)

/-- Match a literal character sequence at the head of the input, returning the
remaining input on success. -/
def matchLit : List Char → List Char → Option (List Char)
  | [], l => some l
  | _ :: _, [] => none
  | c :: cs, d :: l => if d = c then matchLit cs l else none

/-- Match exactly k characters of the class [A-Z], returning the matched
characters and the remaining input. -/
def takeUpperN : Nat → List Char → Option (List Char × List Char)
  | 0, l => some ([], l)
  | _ + 1, [] => none
  | n + 1, c :: l =>
    if isUpperAZ c then
      match takeUpperN n l with
      | some (a, r) => some (c :: a, r)
      | none => none
    else none

/-- Lazy dot-plus followed by a literal: the least k ≥ 1 such that k characters
(none of them a line feed, since the regex dot excludes it) are followed by the
literal stop sequence. Returns the k characters and the input after the stop
sequence. This is the semantics of .+? followed by a literal when nothing of
the pattern follows the literal. -/
def lazyDotsUntil (stop : List Char) : List Char → Option (List Char × List Char)
  | [] => none
  | c :: l =>
    if c = '\n' then none
    else
      match matchLit stop l with
      | some r => some ([c], r)
      | none =>
        match lazyDotsUntil stop l with
        | some (a, r) => some (c :: a, r)
        | none => none

/-- Rule 1, after the literal prefix: try [A-Z]\x7bk\x7d, then the literal 은 and a
space, then the lazy part with its stop sequence (a space, 기술, 을). Returns
the captured letters, the characters matched by the lazy dots, and the
remaining input. -/
def rule1Tail (k : Nat) (l1 : List Char) : Option ((List Char × List Char) × List Char) :=
  match takeUpperN k l1 with
  | none => none
  | some (letters, l2) =>
    match matchLit ("은 ".data) l2 with
    | none => none
    | some l3 =>
      match lazyDotsUntil (" 기술을".data) l3 with
      | none => none
      | some (dots, rest) => some ((letters, dots), rest)

/-- Attempt rule 1 at the current position. The counted repetition [A-Z]\x7b1,3\x7d
is greedy: three letters are tried first, then two, then one. -/
def rule1At (l : List Char) : Option ((List Char × List Char) × List Char) :=
  match matchLit ("프로젝트 ".data) l with
  | none => none
  | some l1 =>
    match rule1Tail 3 l1 with
    | some r => some r
    | none =>
      match rule1Tail 2 l1 with
      | some r => some r
      | none => rule1Tail 1 l1

/-- Rule 2, after the word characters and the literal middle part: [A-Z]\x7bk\x7d
then the literal 를, space, 수행. Returns the captured letters and the
remaining input. -/
def rule2Tail (k : Nat) (l1 : List Char) : Option (List Char × List Char) :=
  match takeUpperN k l1 with
  | none => none
  | some (letters, l2) =>
    match matchLit ("를 수행".data) l2 with
    | none => none
    | some rest => some (letters, rest)

/-- Rule 2 after the lazy word characters: the literal run from 컴퍼니 through
프로젝트 followed by the greedy counted letters. -/
def rule2Rest (l : List Char) : Option (List Char × List Char) :=
  match matchLit (" 컴퍼니에서 프로젝트 ".data) l with
  | none => none
  | some l1 =>
    match rule2Tail 3 l1 with
    | some r => some r
    | none =>
      match rule2Tail 2 l1 with
      | some r => some r
      | none => rule2Tail 1 l1

/-- Attempt rule 2 at the current position. The leading word characters are
matched lazily: one character, then the rest of the pattern; on failure of the
rest, one more word character, and so on. Returns the word characters of the
first group, the letters of the second group, and the remaining input. -/
def rule2At : List Char → Option ((List Char × List Char) × List Char)
  | [] => none
  | c :: l =>
    if isWordChar c then
      match rule2Rest l with
      | some (letters, rest) => some (([c], letters), rest)
      | none =>
        match rule2At l with
        | some (w, rest) => some ((c :: w.1, w.2), rest)
        | none => none
    else none

/-- Rule 3 after the lazy word characters: the literal middle part then the
lazy dots with their stop sequence (a space, 산업, a space, 분야의). -/
def rule3Rest (l : List Char) : Option (List Char × List Char) :=
  match matchLit (" 컴퍼니는 ".data) l with
  | none => none
  | some l1 => lazyDotsUntil (" 산업 분야의".data) l1

/-- Attempt rule 3 at the current position, with the same lazy word-character
handling as rule 2. -/
def rule3At : List Char → Option ((List Char × List Char) × List Char)
  | [] => none
  | c :: l =>
    if isWordChar c then
      match rule3Rest l with
      | some (dots, rest) => some (([c], dots), rest)
      | none =>
        match rule3At l with
        | some (w, rest) => some ((c :: w.1, w.2), rest)
        | none => none
    else none

/-- Leftmost non-overlapping scan, the model of re.findall: at each position
attempt the rule; on success emit the captured groups and continue after the
match, otherwise advance one character. Every match of the three rules
consumes at least one character, so fuel equal to the input length plus one
never runs out. -/
def scanWith (tryAt : List Char → Option ((List Char × List Char) × List Char)) :
    Nat → List Char → List (List Char × List Char)
  | 0, _ => []
  | _ + 1, [] => []
  | fuel + 1, c :: rest =>
    match tryAt (c :: rest) with
    | some (g, remaining) => g :: scanWith tryAt fuel remaining
    | none => scanWith tryAt fuel rest

/-- The core entity of the pipeline: one directed, typed relation between two
named, typed entities, all five fields strings, mirroring the Python tuples
(node1 type, node1 name, relation, node2 type, node2 name). -/
structure Triple where
  subjectType : String
  subjectName : String
  relationType : String
  objectType : String
  objectName : String
  deriving DecidableEq

/-- Triples appended by the first loop of mock_nlp_to_triples. Group 1 of the
pattern is the literal 프로젝트 and a space followed by the letters, group 2 is
the lazy dots followed by a space and 기술; both groups are stripped. -/
def rule1Triples (l : List Char) : List Triple :=
  (scanWith rule1At (l.length + 1) l).map fun p =>
    ⟨"Project", stripName ("프로젝트 ".data ++ p.1), "USES_TECH",
      "Technology", stripName (p.2 ++ " 기술".data)⟩

/-- Triples appended by the second loop. Group 1 is the word characters
followed by a space and 컴퍼니, group 2 is the literal 프로젝트 and a space
followed by the letters; both groups are stripped. -/
def rule2Triples (l : List Char) : List Triple :=
  (scanWith rule2At (l.length + 1) l).map fun p =>
    ⟨"Company", stripName (p.1 ++ " 컴퍼니".data), "CONDUCTS",
      "Project", stripName ("프로젝트 ".data ++ p.2)⟩

/-- Triples appended by the third loop. Group 1 is as in rule 2, group 2 is
the lazy dots followed by a space and 산업; both groups are stripped. -/
def rule3Triples (l : List Char) : List Triple :=
  (scanWith rule3At (l.length + 1) l).map fun p =>
    ⟨"Company", stripName (p.1 ++ " 컴퍼니".data), "BELONGS_TO",
      "Industry", stripName (p.2 ++ " 산업".data)⟩

/-- The extraction function mock_nlp_to_triples: the three rules run in order
over the whole text, and their results are appended rule by rule. -/
def mock_nlp_to_triples (text : String) : List Triple :=
  rule1Triples text.data ++ rule2Triples text.data ++ rule3Triples text.data

/-- The name encoding of generate_cypher_query: the Python expression
name.replace with the apostrophe replaced by a backslash and an apostrophe,
scanning left to right. No other character is touched. -/
def escapeName : List Char → List Char
  | [] => []
  | c :: l =>
    if c = quoteChar then backslashChar :: quoteChar :: escapeName l
    else c :: escapeName l

/-- A one-character string holding the apostrophe. -/
def sq : String := String.mk [quoteChar]

/-- The per-triple Cypher text built by the f-string inside the loop of
generate_cypher_query: a line feed, eight spaces of indentation, the three
MERGE clauses each on its own indented line, and a trailing indented line. -/
def statement_of (t : Triple) : String :=
  "\n        MERGE (n1:" ++ t.subjectType ++ " \x7bname: " ++ sq ++
    String.mk (escapeName t.subjectName.data) ++ sq ++ "\x7d)\n        MERGE (n2:" ++
    t.objectType ++ " \x7bname: " ++ sq ++ String.mk (escapeName t.objectName.data) ++
    sq ++ "\x7d)\n        MERGE (n1)-[:" ++ t.relationType ++ "]->(n2);\n        "

/-- The list cypher_parts built by the loop of generate_cypher_query: one
statement per triple, in input order. -/
def cypher_parts : List Triple → List String
  | [] => []
  | t :: ts => statement_of t :: cypher_parts ts

/-- The full query returned by generate_cypher_query: the parts joined with a
line feed. -/
def generate_cypher_query (ts : List Triple) : String :=
  String.intercalate ("\n") (cypher_parts ts)

/-- The node clause of a statement for a bound variable, a label and a raw
name: MERGE, the variable, the label, and the name encoded and enclosed in
single quotes. Stated to make the three operations inside statement_of
explicit. -/
def ensure_node (v ty nm : String) : String :=
  "MERGE (" ++ v ++ ":" ++ ty ++ " \x7bname: " ++ sq ++
    String.mk (escapeName nm.data) ++ sq ++ "\x7d)"

/-- The edge clause of a statement: MERGE of a directed relation between the
two bound node variables. -/
def ensure_edge (rel : String) : String :=
  "MERGE (n1)-[:" ++ rel ++ "]->(n2);"

/-- Unescape map applied by the sink to the character after a backslash.
Cypher maps a backslash-apostrophe pair to the apostrophe and a double
backslash to the backslash; on those two characters, the only ones the
encoding under study can place after a backslash, the map is the identity,
which is how it is modelled here. -/
def unescapeChar (d : Char) : Char := d

/-- The single-quoted-string rules of the sink: read characters until an
unescaped closing quote; a backslash escapes the character after it. Returns
the decoded string value and the input following the closing quote, or none
when the value never terminates. -/
def parseSingleQuoted : List Char → Option (List Char × List Char)
  | [] => none
  | c :: l =>
    if c = quoteChar then some ([], l)
    else if c = backslashChar then
      match l with
      | [] => none
      | d :: l2 =>
        match parseSingleQuoted l2 with
        | some (s, r) => some (unescapeChar d :: s, r)
        | none => none
    else
      match parseSingleQuoted l with
      | some (s, r) => some (c :: s, r)
      | none => none

/-- Counters reported by the Neo4j driver after a successful run, as read by
the pipeline (summary.counters.nodes and summary.counters.relationships). -/
structure Counters where
  nodes : Nat
  relationships : Nat
  deriving DecidableEq

/-- Observable control-flow outcome of automated_kg_pipeline: which exit the
run takes and, on success, which counters are printed. -/
inductive RunOutcome where
  | abortedEmptyText
  | abortedNoTriples
  | insertSucceeded (c : Counters)
  | insertFailed
  deriving DecidableEq

/-- Modelled from the spec: the result record of the orchestrator,
with fields triplesExtracted, triplesAfterDedup, statementsSubmitted,
nodesAffected, edgesAffected and succeeded. The Python function never
constructs such a record; its return statements are bare and the function
falls off its end, so its return value is None on every path. -/
structure PipelineResult where
  triplesExtracted : Nat
  triplesAfterDedup : Nat
  statementsSubmitted : Nat
  nodesAffected : Nat
  edgesAffected : Nat
  succeeded : Bool
  deriving DecidableEq

/-- The orchestrator automated_kg_pipeline. Text acquisition is modelled by
the already-acquired document text (extract_text_from_pdf returns the empty
string on a read or parse failure, and the empty string is the only falsy
string, so the first guard is the test against the empty string). The sink
(Neo4jConnector.execute_cypher) is modelled as a function from the submitted
query to optional counters, none meaning the driver raised and the method
returned None. The first component is the observable outcome; the second is
the Python return value, which is None on every path, typed against the
spec-modelled record for comparison. -/
def automated_kg_pipeline (document_text : String) (sink : String → Option Counters) :
    RunOutcome × Option PipelineResult :=
  if document_text = "" then (RunOutcome.abortedEmptyText, none)
  else if mock_nlp_to_triples document_text = [] then (RunOutcome.abortedNoTriples, none)
  else
    match sink (generate_cypher_query (mock_nlp_to_triples document_text)) with
    | some c => (RunOutcome.insertSucceeded c, none)
    | none => (RunOutcome.insertFailed, none)

/-- A string has no surrounding whitespace: neither its first nor its last
character is a whitespace character. This is the meaning of being trimmed. -/
def noEdgeWs (s : String) : Prop :=
  (∀ c, s.data.head? = some c → wsChar c = false) ∧
  (∀ c, s.data.getLast? = some c → wsChar c = false)

/-- Well-formedness of a triple: the type and relation fields are one of the
three closed shapes of the rule table, and both names are non-empty and free
of surrounding whitespace. -/
def TripleWF (t : Triple) : Prop :=
  ((t.subjectType, t.relationType, t.objectType) = ("Project", "USES_TECH", "Technology") ∨
    (t.subjectType, t.relationType, t.objectType) = ("Company", "CONDUCTS", "Project") ∨
    (t.subjectType, t.relationType, t.objectType) = ("Company", "BELONGS_TO", "Industry")) ∧
  t.subjectName ≠ "" ∧ noEdgeWs t.subjectName ∧
  t.objectName ≠ "" ∧ noEdgeWs t.objectName

/-- Helper: the head of a dropWhile result fails the predicate. -/
theorem head_dropWhile (p : Char → Bool) :
    ∀ (l : List Char) (c : Char), (List.dropWhile p l).head? = some c → p c = false := by
  intro l
  induction l with
  | nil => intro c h; simp [List.dropWhile] at h
  | cons d l ih =>
    intro c h
    by_cases hd : p d = true
    · rw [List.dropWhile_cons, if_pos hd] at h
      exact ih c h
    · rw [List.dropWhile_cons, if_neg hd] at h
      have hdc : d = c := by simpa using h
      subst hdc
      simpa using hd

/-- Helper: when dropWhile leaves something, it leaves the last element of the
input in place. -/
theorem getLast_dropWhile (p : Char → Bool) :
    ∀ l : List Char, List.dropWhile p l ≠ [] →
      (List.dropWhile p l).getLast? = l.getLast? := by
  intro l
  induction l with
  | nil => intro h; simp [List.dropWhile] at h
  | cons d l ih =>
    intro h
    by_cases hd : p d = true
    · rw [List.dropWhile_cons, if_pos hd] at h ⊢
      rw [ih h]
      have hl : l ≠ [] := by
        intro he; subst he; simp [List.dropWhile] at h
      cases l with
      | nil => exact absurd rfl hl
      | cons e l2 => simp
    · rw [List.dropWhile_cons, if_neg hd]

/-- Helper: an element failing the predicate survives dropWhile. -/
theorem mem_dropWhile (p : Char → Bool) :
    ∀ (l : List Char) (c : Char), c ∈ l → p c = false → c ∈ List.dropWhile p l := by
  intro l
  induction l with
  | nil => simp
  | cons d l ih =>
    intro c hc hpc
    by_cases hd : p d = true
    · rw [List.dropWhile_cons, if_pos hd]
      rcases List.mem_cons.mp hc with h | h
      · subst h; rw [hd] at hpc; cases hpc
      · exact ih c h hpc
    · rw [List.dropWhile_cons, if_neg hd]
      exact hc

/-- Helper: the first character of a stripped list is not whitespace. -/
theorem pyStrip_head (l : List Char) (c : Char) (h : (pyStrip l).head? = some c) :
    wsChar c = false := by
  unfold pyStrip at h
  rw [List.head?_reverse] at h
  have hne : List.dropWhile wsChar (List.dropWhile wsChar l).reverse ≠ [] := by
    intro he; rw [he] at h; simp at h
  rw [getLast_dropWhile _ _ hne, List.getLast?_reverse] at h
  exact head_dropWhile wsChar _ c h

/-- Helper: the last character of a stripped list is not whitespace. -/
theorem pyStrip_last (l : List Char) (c : Char) (h : (pyStrip l).getLast? = some c) :
    wsChar c = false := by
  unfold pyStrip at h
  rw [List.getLast?_reverse] at h
  exact head_dropWhile wsChar _ c h

/-- Helper: a list holding a non-whitespace character does not strip to the
empty list. -/
theorem pyStrip_ne_nil (l : List Char) (c : Char) (hc : c ∈ l) (hw : wsChar c = false) :
    pyStrip l ≠ [] := by
  unfold pyStrip
  have h1 := mem_dropWhile wsChar l c hc hw
  have h2 : c ∈ (List.dropWhile wsChar l).reverse := List.mem_reverse.mpr h1
  have h3 := mem_dropWhile wsChar _ c h2 hw
  exact List.ne_nil_of_mem (List.mem_reverse.mpr h3)

/-- Helper: a stripped name over a list holding a non-whitespace character is
a non-empty string. -/
theorem stripName_ne_empty (l : List Char) (c : Char) (hc : c ∈ l) (hw : wsChar c = false) :
    stripName l ≠ "" := by
  intro h
  exact pyStrip_ne_nil l c hc hw (congrArg String.data h)

/-- Helper: a stripped name has no surrounding whitespace. -/
theorem noEdgeWs_stripName (l : List Char) : noEdgeWs (stripName l) :=
  ⟨fun c h => pyStrip_head l c h, fun c h => pyStrip_last l c h⟩

/-- Helper: the loop of generate_cypher_query is the map of the per-triple
statement over the input list. -/
theorem cypher_parts_eq_map : ∀ ts : List Triple, cypher_parts ts = ts.map statement_of := by
  intro ts
  induction ts with
  | nil => rfl
  | cons t ts ih => rw [cypher_parts, ih]; rfl

/-- Helper: the encoding of a name free of backslashes round-trips through the
single-quoted-string rules of the sink: the value terminates exactly at the
appended closing quote, the decoded value is the original name, and the input
after the value is untouched. -/
theorem parseSQ_cons (c : Char) (l : List Char) :
    parseSingleQuoted (c :: l) =
      if c = quoteChar then some ([], l)
      else if c = backslashChar then
        match l with
        | [] => none
        | d :: l2 =>
          match parseSingleQuoted l2 with
          | some (s, r) => some (unescapeChar d :: s, r)
          | none => none
      else
        match parseSingleQuoted l with
        | some (s, r) => some (c :: s, r)
        | none => none := by
  rw [parseSingleQuoted.eq_def]

theorem escape_roundtrip (name tail : List Char) (h : backslashChar ∉ name) :
    parseSingleQuoted (escapeName name ++ quoteChar :: tail) = some (name, tail) := by
  induction name with
  | nil =>
    rw [escapeName, List.nil_append, parseSQ_cons, if_pos rfl]
  | cons c rest ih =>
    have hc : c ≠ backslashChar := by
      intro he; subst he; exact h (List.mem_cons_self _ _)
    have hrest : backslashChar ∉ rest := fun hm => h (List.mem_cons_of_mem c hm)
    by_cases hq : c = quoteChar
    · subst hq
      rw [escapeName, if_pos rfl, List.cons_append, List.cons_append, parseSQ_cons,
        if_neg (by decide), if_pos rfl]
      simp only [ih hrest, unescapeChar]
    · rw [escapeName, if_neg hq, List.cons_append, parseSQ_cons, if_neg hq, if_neg hc]
      simp only [ih hrest]

/-- Claim C1: evidence of the code bug. For a name ending in a backslash, a
sink-reserved character, the encoding of generate_cypher_query leaves the
backslash untouched (only apostrophes are replaced), and the resulting
single-quoted value never terminates: the trailing backslash escapes the
closing quote, so the sink, parsing by its single-quoted-string rules, does
not recover the original name and the value swallows the following statement
text. A structure-preserving encoding would have to yield the original name
and the untouched remainder. -/
theorem escape_backslash_breaks_value :
    escapeName (("Python" ++ String.mk [backslashChar]).data)
        = ("Python" ++ String.mk [backslashChar]).data ∧
    parseSingleQuoted (escapeName (("Python" ++ String.mk [backslashChar]).data)
        ++ quoteChar :: ("\x7d)".data)) = none := by
  constructor
  · decide
  · decide

/-- Claim C2, counterexample: two occurrences of the identical sentence in one
text yield two extracted triples and two compiled statements, not one; no
deduplication happens anywhere between extraction and compilation. -/
theorem dedup_claim_counterexample :
    (mock_nlp_to_triples
        ("프로젝트 AAA은 Python 기술을 쓴다. 프로젝트 AAA은 Python 기술을 쓴다. ")).length ≠ 1 ∧
    (cypher_parts (mock_nlp_to_triples
        ("프로젝트 AAA은 Python 기술을 쓴다. 프로젝트 AAA은 Python 기술을 쓴다. "))).length ≠ 1 := by
  constructor
  · decide
  · decide

/-- Claim C2, amended: the pipeline performs no deduplication. Two occurrences
of the identical sentence yield two structurally equal triples, and
compilation turns them into two equal statements, in extraction order. -/
theorem duplicate_sentence_two_statements :
    mock_nlp_to_triples
        ("프로젝트 AAA은 Python 기술을 쓴다. 프로젝트 AAA은 Python 기술을 쓴다. ")
      = [⟨"Project", "프로젝트 AAA", "USES_TECH", "Technology", "Python 기술"⟩,
         ⟨"Project", "프로젝트 AAA", "USES_TECH", "Technology", "Python 기술"⟩] ∧
    cypher_parts (mock_nlp_to_triples
        ("프로젝트 AAA은 Python 기술을 쓴다. 프로젝트 AAA은 Python 기술을 쓴다. "))
      = [statement_of ⟨"Project", "프로젝트 AAA", "USES_TECH", "Technology", "Python 기술"⟩,
         statement_of ⟨"Project", "프로젝트 AAA", "USES_TECH", "Technology", "Python 기술"⟩] := by
  constructor
  · decide
  · rw [cypher_parts_eq_map, show mock_nlp_to_triples
      ("프로젝트 AAA은 Python 기술을 쓴다. 프로젝트 AAA은 Python 기술을 쓴다. ")
      = [⟨"Project", "프로젝트 AAA", "USES_TECH", "Technology", "Python 기술"⟩,
         ⟨"Project", "프로젝트 AAA", "USES_TECH", "Technology", "Python 기술"⟩] by decide]
    rfl

/-- Claim C3, counterexample: the text that is exactly the quoted substring
does not yield a triple whose object name is Python. The second capture group
of rule 1 includes the literal suffix, a space and 기술, so the captured
technology name is not the bare word. -/
theorem uses_tech_object_not_python :
    (⟨"Project", "프로젝트 AAA", "USES_TECH", "Technology", "Python"⟩ : Triple)
      ∉ mock_nlp_to_triples ("프로젝트 AAA은 Python 기술을") := by
  decide

/-- Claim C3, amended: the text consisting of the quoted substring yields
exactly one triple, with subject 프로젝트 AAA and with the object name
Python 기술 (the technology capture keeps the suffix, a space and 기술). -/
theorem uses_tech_scenario_amended :
    mock_nlp_to_triples ("프로젝트 AAA은 Python 기술을")
      = [⟨"Project", "프로젝트 AAA", "USES_TECH", "Technology", "Python 기술"⟩] := by
  decide

/-- Claim C4, counterexample: on a text that extracts triples and a sink that
fails, the orchestrator returns no result record at all; its return value is
None, so in particular no record with a succeeded flag is produced. -/
theorem pipeline_returns_no_record :
    ¬ ∃ r : PipelineResult,
      (automated_kg_pipeline ("C 컴퍼니에서 프로젝트 CCC를 수행") (fun _ => none)).2
        = some r := by
  intro hex
  obtain ⟨r, hr⟩ := hex
  have hnone :
      (automated_kg_pipeline ("C 컴퍼니에서 프로젝트 CCC를 수행") (fun _ => none)).2
        = none := by decide
  rw [hnone] at hr
  cases hr

/-- Claim C4, amended: the orchestrator never returns a result record; its
return value is None on every path. A sink failure on a non-empty text with
extracted triples is reported only through the failure branch (a printed
message), and the run ends normally rather than aborting. -/
theorem pipeline_sink_failure_reported (text : String) (sink : String → Option Counters)
    (h1 : text ≠ "") (h2 : mock_nlp_to_triples text ≠ [])
    (h3 : sink (generate_cypher_query (mock_nlp_to_triples text)) = none) :
    automated_kg_pipeline text sink = (RunOutcome.insertFailed, none) := by
  unfold automated_kg_pipeline
  rw [if_neg h1, if_neg h2, h3]

/-- Claim C4, witness for the amended theorem at a concrete text and a sink
that always fails. -/
theorem pipeline_sink_failure_reported_witness :
    automated_kg_pipeline ("프로젝트 AAA은 Python 기술을") (fun _ => none)
      = (RunOutcome.insertFailed, none) :=
  pipeline_sink_failure_reported ("프로젝트 AAA은 Python 기술을") (fun _ => none)
    (by decide) (by decide) rfl

/-- Claim C5, counterexample: on the empty text the orchestrator returns no
result record; its return value is None, so no record with succeeded set to
false and zero submitted statements exists. -/
theorem empty_input_no_result_record :
    ¬ ∃ r : PipelineResult,
      (automated_kg_pipeline ("") (fun _ => none)).2 = some r := by
  intro hex
  obtain ⟨r, hr⟩ := hex
  have hnone : (automated_kg_pipeline ("") (fun _ => none)).2 = none := by decide
  rw [hnone] at hr
  cases hr

/-- Claim C5, amended: extraction on the empty string returns the empty
sequence; on the empty text the orchestrator short-circuits at its first
guard without consulting the sink; and whenever extraction yields zero
triples the whole run is independent of the sink, which is the meaning of
never calling it. The orchestrator returns None rather than a record with a
succeeded flag. -/
theorem empty_input_short_circuit :
    mock_nlp_to_triples ("") = [] ∧
    (∀ sink : String → Option Counters,
      automated_kg_pipeline ("") sink = (RunOutcome.abortedEmptyText, none)) ∧
    (∀ (text : String) (sink sink2 : String → Option Counters),
      mock_nlp_to_triples text = [] →
      automated_kg_pipeline text sink = automated_kg_pipeline text sink2) := by
  refine ⟨by decide, fun sink => ?_, fun text sink sink2 h => ?_⟩
  · unfold automated_kg_pipeline
    rw [if_pos rfl]
  · unfold automated_kg_pipeline
    by_cases ht : text = ""
    · rw [if_pos ht, if_pos ht]
    · rw [if_neg ht, if_neg ht, if_pos h, if_pos h]

/-- Claim C5, witness: on a concrete text with no extractable triples the run
is the same under a failing sink and under a succeeding sink. -/
theorem empty_input_short_circuit_witness :
    automated_kg_pipeline ("hello") (fun _ => none)
      = automated_kg_pipeline ("hello") (fun _ => some ⟨5, 7⟩) :=
  empty_input_short_circuit.2.2 ("hello") (fun _ => none) (fun _ => some ⟨5, 7⟩) (by decide)

/-- Claim C6: per-run determinism. The extraction, compilation and join steps
are pure functions of the text and the fixed rule table (the embedding has no
state, as the code consults none), so two runs of the composition on the same
text yield the same triple list, the same statement list and the same joined
query. -/
theorem pipeline_deterministic (text : String) :
    mock_nlp_to_triples text = mock_nlp_to_triples text ∧
    cypher_parts (mock_nlp_to_triples text) = cypher_parts (mock_nlp_to_triples text) ∧
    generate_cypher_query (mock_nlp_to_triples text)
      = generate_cypher_query (mock_nlp_to_triples text) :=
  ⟨rfl, rfl, rfl⟩

/-- Claim C7: compilation shape. The statement list has one entry per input
triple, the entry at every index is the statement of the triple at the same
index, and every statement is the indented concatenation of an ensure-subject
node clause, an ensure-object node clause and an ensure-edge clause derived
from that one triple. -/
theorem compile_one_statement_per_triple (ts : List Triple) (i : Nat) :
    (cypher_parts ts).length = ts.length ∧
    (cypher_parts ts)[i]? = Option.map statement_of ts[i]? ∧
    (∀ t : Triple, statement_of t
      = ("\n        ") ++ ensure_node ("n1") t.subjectType t.subjectName
        ++ ("\n        ") ++ ensure_node ("n2") t.objectType t.objectName
        ++ ("\n        ") ++ ensure_edge t.relationType ++ ("\n        ")) := by
  refine ⟨?_, ?_, ?_⟩
  · rw [cypher_parts_eq_map]
    exact List.length_map ts statement_of
  · rw [cypher_parts_eq_map]
    exact List.getElem?_map statement_of ts i
  · intro t
    apply String.ext
    simp [statement_of, ensure_node, ensure_edge]

/-- Claim C8: totality of the transform stage. Extraction and compilation are
total functions of the text: on every input text, including malformed ones,
they return a triple list and a query string (in the worst case the triple
list is empty), and compilation succeeds on every extraction result with one
statement per triple. Only the sink and text acquisition, which are outside
these functions, can fail a run. -/
theorem transform_total (text : String) :
    ∃ (ts : List Triple) (q : String),
      mock_nlp_to_triples text = ts ∧ generate_cypher_query ts = q ∧
      (cypher_parts ts).length = ts.length := by
  refine ⟨mock_nlp_to_triples text, generate_cypher_query (mock_nlp_to_triples text),
    rfl, rfl, ?_⟩
  rw [cypher_parts_eq_map]
  exact List.length_map _ statement_of

/-- Claim C9: well-formedness of extracted triples. Every triple produced by
extraction on any text has its type and relation fields drawn from the closed
three-shape rule table, and both of its names, being stripped captures that
contain a non-whitespace character from the fixed part of the pattern, are
non-empty and free of surrounding whitespace. -/
theorem extraction_wellformed (text : String) (t : Triple)
    (ht : t ∈ mock_nlp_to_triples text) : TripleWF t := by
  unfold mock_nlp_to_triples at ht
  rcases List.mem_append.mp ht with h12 | h3
  · rcases List.mem_append.mp h12 with h1 | h2
    · rw [rule1Triples] at h1
      obtain ⟨p, _, rfl⟩ := List.mem_map.mp h1
      exact ⟨Or.inl rfl,
        stripName_ne_empty _ '프' (List.mem_append.mpr (Or.inl (by decide))) (by decide),
        noEdgeWs_stripName _,
        stripName_ne_empty _ '기' (List.mem_append.mpr (Or.inr (by decide))) (by decide),
        noEdgeWs_stripName _⟩
    · rw [rule2Triples] at h2
      obtain ⟨p, _, rfl⟩ := List.mem_map.mp h2
      exact ⟨Or.inr (Or.inl rfl),
        stripName_ne_empty _ '컴' (List.mem_append.mpr (Or.inr (by decide))) (by decide),
        noEdgeWs_stripName _,
        stripName_ne_empty _ '프' (List.mem_append.mpr (Or.inl (by decide))) (by decide),
        noEdgeWs_stripName _⟩
  · rw [rule3Triples] at h3
    obtain ⟨p, _, rfl⟩ := List.mem_map.mp h3
    exact ⟨Or.inr (Or.inr rfl),
      stripName_ne_empty _ '컴' (List.mem_append.mpr (Or.inr (by decide))) (by decide),
      noEdgeWs_stripName _,
      stripName_ne_empty _ '산' (List.mem_append.mpr (Or.inr (by decide))) (by decide),
      noEdgeWs_stripName _⟩

/-- Claim C9, witness: the triple extracted from a concrete text is
well-formed. -/
theorem extraction_wellformed_witness :
    TripleWF ⟨"Project", "프로젝트 AAA", "USES_TECH", "Technology", "Python 기술"⟩ :=
  extraction_wellformed ("프로젝트 AAA은 Python 기술을") _ (by decide)

/-- Claim C10: rule-grouped output order. On every text, extraction returns
the matches of rule 1 (USES_TECH), then those of rule 2 (CONDUCTS), then
those of rule 3 (BELONGS_TO); each block carries only its own relation type.
On a concrete text in which the BELONGS_TO sentence precedes the USES_TECH
sentence, the output still lists the USES_TECH triple first, so the order is
by rule, not by position in the document. -/
theorem extraction_rule_grouped (text : String) :
    mock_nlp_to_triples text
      = rule1Triples text.data ++ rule2Triples text.data ++ rule3Triples text.data ∧
    (rule1Triples text.data).all (fun t => t.relationType == "USES_TECH") = true ∧
    (rule2Triples text.data).all (fun t => t.relationType == "CONDUCTS") = true ∧
    (rule3Triples text.data).all (fun t => t.relationType == "BELONGS_TO") = true ∧
    mock_nlp_to_triples ("A 컴퍼니는 금융 산업 분야의 회사. 프로젝트 AAA은 Python 기술을")
      = [⟨"Project", "프로젝트 AAA", "USES_TECH", "Technology", "Python 기술"⟩,
         ⟨"Company", "A 컴퍼니", "BELONGS_TO", "Industry", "금융 산업"⟩] := by
  refine ⟨rfl, ?_, ?_, ?_, by decide⟩
  · rw [rule1Triples, List.all_eq_true]
    intro t ht
    obtain ⟨p, _, rfl⟩ := List.mem_map.mp ht
    rfl
  · rw [rule2Triples, List.all_eq_true]
    intro t ht
    obtain ⟨p, _, rfl⟩ := List.mem_map.mp ht
    rfl
  · rw [rule3Triples, List.all_eq_true]
    intro t ht
    obtain ⟨p, _, rfl⟩ := List.mem_map.mp ht
    rfl

end Pdf2Neo4j
